import Mathlib

/-!
Verification of the drugstore-web inventory client.

Shallow embedding of the core client-side logic of the drugstore-web
repository: the derived stock/expiry status classifiers, the field-name
translators at the API boundary, the filter evaluators, the form
validation, and the query-cache invalidation contract.

Dates are modelled as instants in milliseconds since the epoch (`Int`),
matching the JavaScript `Date.getTime()` representation that the
date-fns comparison helpers operate on.  JavaScript runtime values that
may be either strings or numbers are modelled by the `JsVal` sum type,
and duck-typed payload objects by association lists (`JsObj`).
-/

/-- Milliseconds per day, the unit `date-fns.addDays` advances by. -/
def msPerDay : Int := 86400000

/-- Models `date-fns` `addDays(t, n)`: the instant `n` days after `t`. -/
def addDays (t n : Int) : Int := t + n * msPerDay

/-- Models `date-fns` `isAfter(a, b)`: `a` is strictly later than `b`. -/
def isAfter (a b : Int) : Bool := b < a

/-- Models `date-fns` `isBefore(a, b)`: `a` is strictly earlier than `b`. -/
def isBefore (a b : Int) : Bool := a < b

/-- Constant `INVENTORY_CONSTANTS.DEFAULT_MIN_STOCK` from `src/types/inventory.ts`
(the variant in `src/unnamed/part_001`). -/
def DEFAULT_MIN_STOCK : Int := 10

/-- Constant `INVENTORY_CONSTANTS.EXPIRING_SOON_DAYS` from the same constants object. -/
def EXPIRING_SOON_DAYS : Int := 30

/-- Constant `INVENTORY_CONSTANTS.LOW_STOCK_THRESHOLD` from `src/types/inventory.ts`. -/
def LOW_STOCK_THRESHOLD : Int := 10

/-- Constant `INVENTORY_CONSTANTS.EXPIRY_WARNING_DAYS` from `src/types/inventory.ts`. -/
def EXPIRY_WARNING_DAYS : Int := 30

/-- Embeds `isLowStock` from `src/lib/utils.ts`:
`quantity > 0 && quantity <= threshold`.  In the source the threshold
defaults to `INVENTORY_CONSTANTS.DEFAULT_MIN_STOCK`; here callers that
rely on the default pass `DEFAULT_MIN_STOCK` explicitly. -/
def isLowStock (quantity threshold : Int) : Bool :=
  quantity > 0 && quantity ≤ threshold

/-- Embeds `isExpiringSoon` from `src/lib/utils.ts`:
`isAfter(expiry, today) && isBefore(expiry, addDays(today, daysThreshold))`.
`today` is the reference instant `now`; the threshold defaults to
`EXPIRING_SOON_DAYS` in the source and is passed explicitly here. -/
def isExpiringSoon (expiry now daysThreshold : Int) : Bool :=
  isAfter expiry now && isBefore expiry (addDays now daysThreshold)

/-- Embeds `isExpired` from `src/lib/utils.ts`: `isBefore(expiry, today)`. -/
def isExpired (expiry now : Int) : Bool :=
  isBefore expiry now

/-- Embeds `getStatusText` from the query-based `ProductList` organism
(concatenated into `src/components/organisms/product-form-modal.tsx`):
a single status label chosen by first-match-wins over both the stock and
the expiry family.  `isExpired`/`isExpiringSoon` are the `lib/utils`
helpers evaluated at the render instant `now`. -/
def getStatusText (stockQuantity minimumStockThreshold expiryDate now : Int) : String :=
  if stockQuantity = 0 then "Out of Stock"
  else if isLowStock stockQuantity minimumStockThreshold then "Low Stock"
  else if isExpired expiryDate now then "Expired"
  else if isExpiringSoon expiryDate now EXPIRING_SOON_DAYS then "Expiring Soon"
  else "In Stock"

/-- Embeds `ProductStatusBadge` from
`src/components/molecules/product-status-badge.tsx`, rendered as the list
of badge labels it produces.  It calls `isLowStock(product.stockQuantity)`
and `isExpiringSoon(product.expiryDate)` with the source defaults
`DEFAULT_MIN_STOCK` and `EXPIRING_SOON_DAYS`. -/
def ProductStatusBadge (stockQuantity expiryDate now : Int) : List String :=
  let lowStock := isLowStock stockQuantity DEFAULT_MIN_STOCK
  let expiringSoon := isExpiringSoon expiryDate now EXPIRING_SOON_DAYS
  if lowStock && expiringSoon then ["Low Stock", "Expiring Soon"]
  else if lowStock then ["Low Stock"]
  else if expiringSoon then ["Expiring Soon"]
  else ["In Stock"]

namespace ProductList

/-- Ceiling of `a / b` for `b > 0`, modelling JavaScript
`Math.ceil(a / b)` on integer inputs. -/
def ceilDivInt (a b : Int) : Int := -(Int.fdiv (-a) b)

/-- The local `isLowStock` of the effect-based `ProductList` organism
(concatenated into `src/components/organisms/product-form-modal.tsx`):
`quantity < INVENTORY_CONSTANTS.LOW_STOCK_THRESHOLD` (strict, no
zero-quantity special case, fixed constant threshold). -/
def isLowStock (quantity : Int) : Bool :=
  quantity < LOW_STOCK_THRESHOLD

/-- The local `isExpiringSoon` of the same component:
`Math.ceil((expiry - today) / msPerDay) <= EXPIRY_WARNING_DAYS`. -/
def isExpiringSoon (expiry now : Int) : Bool :=
  ceilDivInt (expiry - now) msPerDay ≤ EXPIRY_WARNING_DAYS

/-- Embeds `renderStatusBadges` of the same component, as the list of badge
labels: the low-stock and expiring-soon badges are emitted independently
and additively. -/
def renderStatusBadges (stockQuantity expiryDate now : Int) : List String :=
  (if isLowStock stockQuantity then ["Low Stock"] else []) ++
  (if isExpiringSoon expiryDate now then ["Expiring Soon"] else [])

end ProductList

/-- Embeds `snakeToCamel` from `src/lib/utils.ts` at the character level:
the global regex replace of `_([a-z])` by the upper-cased letter,
scanned left to right over non-overlapping matches. -/
def snakeToCamel : List Char → List Char
  | [] => []
  | '_' :: c :: rest =>
      if c.isLower then c.toUpper :: snakeToCamel rest
      else '_' :: snakeToCamel (c :: rest)
  | c :: rest => c :: snakeToCamel rest

/-- Embeds `camelToSnake` from `src/lib/utils.ts` at the character level:
the global regex replace of `([A-Z])` by an underscore followed by the
lower-cased letter. -/
def camelToSnake : List Char → List Char
  | [] => []
  | c :: rest =>
      if c.isUpper then '_' :: c.toLower :: camelToSnake rest
      else c :: camelToSnake rest

/-- Function `snakeToCamel` lifted to `String`. -/
def snakeToCamelS (s : String) : String := (snakeToCamel s.data).asString

/-- Function `camelToSnake` lifted to `String`. -/
def camelToSnakeS (s : String) : String := (camelToSnake s.data).asString

/-- A JavaScript runtime value at the API boundary: absent/undefined, a
string, or a number (numbers as rationals). -/
inductive JsVal where
  | undef : JsVal
  | str (s : String) : JsVal
  | num (q : Rat) : JsVal
deriving DecidableEq, Repr

/-- Whether a runtime value is numeric (`typeof v === "number"`). -/
def JsVal.isNum : JsVal → Bool
  | JsVal.num _ => true
  | _ => false

/-- A duck-typed JavaScript object as an association list in key
insertion order. -/
def JsObj := List (String × JsVal)

instance : DecidableEq JsObj := inferInstanceAs (DecidableEq (List (String × JsVal)))

/-- JavaScript property read `o.k`: the first binding of `k`, or
`undefined` when the key is absent. -/
def getF (o : JsObj) (k : String) : JsVal :=
  match o.find? (fun p => p.1 == k) with
  | some p => p.2
  | none => JsVal.undef

/-- Models the JavaScript `parseFloat` builtin (an external
collaborator): optional sign, integer digits, optional decimal fraction.
Inputs JavaScript would parse to `NaN` are modelled as `0`; `NaN` is
itself a JavaScript number, which is all this development relies on. -/
def parseFloat (s : String) : Rat :=
  let l := s.data
  let signAndDigits :=
    match l with
    | '-' :: rest => (true, rest)
    | _ => (false, l)
  let ds := signAndDigits.2
  let ip := ds.takeWhile Char.isDigit
  let rest := ds.dropWhile Char.isDigit
  let fp := match rest with
    | '.' :: r => r.takeWhile Char.isDigit
    | _ => []
  let digitsToNat : List Char → Nat := fun cs => cs.foldl (fun a c => a * 10 + (c.toNat - 48)) 0
  let den : Nat := 10 ^ fp.length
  let n : Int := (digitsToNat ip * den + digitsToNat fp : Nat)
  mkRat (if signAndDigits.1 then -n else n) den

/-- Embeds `transformResponseData` from `src/services/api.ts`: rebuilds the
payload with every top-level key translated by `snakeToCamel`, values
untouched. -/
def transformResponseData (o : JsObj) : JsObj :=
  o.map (fun p => (snakeToCamelS p.1, p.2))

/-- Embeds `transformRequestData` from `src/services/api.ts`: rebuilds the
payload with every top-level key translated by `camelToSnake`, values
untouched. -/
def transformRequestData (o : JsObj) : JsObj :=
  o.map (fun p => (camelToSnakeS p.1, p.2))

/-- Embeds `inventoryApi.getProducts` from the first `src/services/api.ts`
variant, abstracted over the server response body:
`response.data.map(transformResponseData)` — key renaming only, no value
coercion (`getProductById` applies the same transform to one record). -/
def inventoryApi_getProducts_generic (respData : List JsObj) : List JsObj :=
  respData.map transformResponseData

/-- Embeds `transformApiProduct` from `src/lib/transformers.ts`
(`src/unnamed/part_002`): a fixed-shape server→client record mapper; the
price is coerced to a number when it arrives as a string
(`typeof apiProduct.price === "string" ? parseFloat(...) : ...`). -/
def transformApiProduct (o : JsObj) : JsObj :=
  [("id", getF o "id"),
   ("name", getF o "name"),
   ("description", getF o "description"),
   ("price", match getF o "price" with
             | JsVal.str s => JsVal.num (parseFloat s)
             | v => v),
   ("stockQuantity", getF o "stock_quantity"),
   ("category", getF o "category"),
   ("supplier", getF o "supplier"),
   ("expiryDate", getF o "expiry_date"),
   ("createdAt", getF o "created_at"),
   ("updatedAt", getF o "updated_at")]

/-- Embeds `transformNewProductToApi` from the same file: client→server mapper
for new products (no id, no timestamps). -/
def transformNewProductToApi (o : JsObj) : JsObj :=
  [("name", getF o "name"),
   ("description", getF o "description"),
   ("price", getF o "price"),
   ("stock_quantity", getF o "stockQuantity"),
   ("category", getF o "category"),
   ("supplier", getF o "supplier"),
   ("expiry_date", getF o "expiryDate")]

/-- Embeds `transformProductToApi` from the same file: client→server mapper for
updates; note it writes back `id` but not `created_at`/`updated_at`. -/
def transformProductToApi (o : JsObj) : JsObj :=
  [("id", getF o "id"),
   ("name", getF o "name"),
   ("description", getF o "description"),
   ("price", getF o "price"),
   ("stock_quantity", getF o "stockQuantity"),
   ("category", getF o "category"),
   ("supplier", getF o "supplier"),
   ("expiry_date", getF o "expiryDate")]

/-- Embeds `inventoryApi.getProducts` from the transformer-based
`src/services/api.ts` variant, abstracted over the server response body:
`response.data.map(transformApiProduct)`. -/
def inventoryApi_getProducts (respData : List JsObj) : List JsObj :=
  respData.map transformApiProduct

/-- The server-convention key set of a product record: the fields of the
`Product` types of `src/types/inventory.ts` and `src/unnamed/part_001`,
spelled in the snake_case convention of the server. -/
def productServerKeys : List String :=
  ["id", "name", "description", "price", "stock_quantity", "category",
   "supplier", "expiry_date", "created_at", "updated_at",
   "minimum_stock_threshold"]

/-- The `Product` record of `src/types/inventory.ts`. -/
structure Product where
  id : Int
  name : String
  description : String
  price : Rat
  stockQuantity : Int
  category : String
  supplier : String
  expiryDate : String
  createdAt : String
  updatedAt : String
deriving DecidableEq, Repr

/-- Embeds `ProductFiltersOptions` from `src/types/inventory.ts`: every field
optional (`none` models an absent field). -/
structure ProductFiltersOptions where
  category : Option String
  supplier : Option String
  lowStock : Option Bool
  expiringSoon : Option Bool
deriving DecidableEq, Repr

/-- JavaScript truthiness of an optional string: absent and `""` are
falsy. -/
def truthyS : Option String → Bool
  | none => false
  | some s => s ≠ ""

/-- JavaScript truthiness of an optional boolean: only `true` is truthy. -/
def truthyB : Option Bool → Bool
  | none => false
  | some b => b

/-- Whether `needle` is a leading segment of `hay`. -/
def charsStart : List Char → List Char → Bool
  | [], _ => true
  | _ :: _, [] => false
  | a :: as, b :: bs => a == b && charsStart as bs

/-- Whether `needle` occurs contiguously anywhere in `hay`. -/
def charsContain (needle : List Char) : List Char → Bool
  | [] => needle.isEmpty
  | c :: rest => charsStart needle (c :: rest) || charsContain needle rest

/-- JavaScript `String.prototype.toLowerCase` (ASCII range), at the
character level. -/
def jsToLower (s : String) : String := (s.data.map Char.toLower).asString

/-- JavaScript `String.prototype.includes`: substring containment. -/
def jsIncludes (hay needle : String) : Bool :=
  charsContain needle.data hay.data

namespace ProductList

/-- Embeds `filterByCategory` of the effect-based `ProductList` organism:
case-insensitive substring match on the category. -/
def filterByCategory (products : List Product) (category : String) : List Product :=
  products.filter (fun p => jsIncludes (jsToLower p.category) (jsToLower category))

/-- Embeds `filterBySupplier` of the same component: case-insensitive substring
match on the supplier. -/
def filterBySupplier (products : List Product) (supplier : String) : List Product :=
  products.filter (fun p => jsIncludes (jsToLower p.supplier) (jsToLower supplier))

/-- Embeds `getFilteredProducts` of the same component, abstracted over the
three server responses: the low-stock endpoint when the `lowStock`
shortcut is truthy, else the expiring endpoint when `expiringSoon` is
truthy, else the plain collection. -/
def getFilteredProducts (filters : ProductFiltersOptions)
    (lowStockResp expiringResp allResp : List Product) : List Product :=
  if truthyB filters.lowStock then lowStockResp
  else if truthyB filters.expiringSoon then expiringResp
  else allResp

/-- Embeds `applyClientFilters` of the same component: category filter when
truthy, then supplier filter when truthy. -/
def applyClientFilters (filters : ProductFiltersOptions)
    (products : List Product) : List Product :=
  let afterCategory :=
    if truthyS filters.category then filterByCategory products (filters.category.getD "")
    else products
  if truthyS filters.supplier then filterBySupplier afterCategory (filters.supplier.getD "")
  else afterCategory

/-- Embeds `fetchProducts` of the same component, as the list it stores for
rendering: the client-side filters are applied to whatever
`getFilteredProducts` fetched, shortcut endpoint or not. -/
def fetchProducts (filters : ProductFiltersOptions)
    (lowStockResp expiringResp allResp : List Product) : List Product :=
  applyClientFilters filters (getFilteredProducts filters lowStockResp expiringResp allResp)

end ProductList

/-- The `queryFn` of the `useProducts` hook in
`src/hooks/use-inventory.ts` (concatenated into
`src/stores/inventory-store.ts`), abstracted over the three server
responses: a truthy shortcut returns the data of the dedicated endpoint
unchanged; only the plain-collection branch applies the client-side
category and supplier filters. -/
def useProductsQueryFn (filters : ProductFiltersOptions)
    (lowStockResp expiringResp allResp : List Product) : List Product :=
  if truthyB filters.lowStock then lowStockResp
  else if truthyB filters.expiringSoon then expiringResp
  else
    let afterCategory :=
      if truthyS filters.category then
        allResp.filter (fun p => jsIncludes (jsToLower p.category) (jsToLower (filters.category.getD "")))
      else allResp
    if truthyS filters.supplier then
      afterCategory.filter (fun p => jsIncludes (jsToLower p.supplier) (jsToLower (filters.supplier.getD "")))
    else afterCategory

/-- The `NewProduct` record of `src/types/inventory.ts`: the form data
submitted on create/update. -/
structure NewProduct where
  name : String
  description : String
  price : Rat
  stockQuantity : Int
  category : String
  supplier : String
  expiryDate : String
deriving DecidableEq, Repr

/-- JavaScript `String.prototype.trim`, at the character level. -/
def jsTrim (s : String) : String :=
  ((s.data.dropWhile Char.isWhitespace).reverse.dropWhile Char.isWhitespace).reverse.asString

/-- Embeds `validateForm` from `src/components/organisms/product-form.tsx`,
returning the first error message set, or `none` when the source
function returns `true`.  The checks run in source order. -/
def validateForm (f : NewProduct) : Option String :=
  if jsTrim f.name = "" then some "Product name is required"
  else if f.price ≤ 0 then some "Price must be greater than 0"
  else if f.stockQuantity < 0 then some "Stock quantity cannot be negative"
  else if jsTrim f.category = "" then some "Category is required"
  else if jsTrim f.supplier = "" then some "Supplier is required"
  else if f.expiryDate = "" then some "Expiry date is required"
  else none

/-- A network mutation issued by a form submission. -/
inductive ApiCall where
  | create (p : NewProduct) : ApiCall
  | update (id : Int) (p : NewProduct) : ApiCall
deriving DecidableEq, Repr

/-- Embeds `handleSubmit` from `src/components/organisms/product-form.tsx`, as
the pair (error message set, API calls issued): when `validateForm`
fails the handler returns early and no API function is invoked;
otherwise it invokes `updateProduct` when editing an existing product
and `createProduct` otherwise. -/
def handleSubmit (editing : Option Int) (f : NewProduct) : Option String × List ApiCall :=
  match validateForm f with
  | some e => (some e, [])
  | none =>
    match editing with
    | some id => (none, [ApiCall.update id f])
    | none => (none, [ApiCall.create f])

/-- Embeds `productSchema` from `src/schemas/product-schema.ts` (concatenated
into `src/stores/inventory-store.ts`), as the predicate that decides
whether zod validation succeeds: name length in [1,100], optional
description of length ≤ 500, `price` with `min(0)`/`max(999999)` (both
inclusive in zod), integer `stockQuantity ≥ 0`, non-empty category,
supplier and expiryDate strings. -/
def productSchemaCheck (name : String) (description : Option String)
    (price : Rat) (stockQuantity : Int)
    (category supplier expiryDate : String) : Bool :=
  (1 ≤ name.length && name.length ≤ 100) &&
  (match description with
   | none => true
   | some d => d.length ≤ 500) &&
  (0 ≤ price && price ≤ 999999) &&
  (0 ≤ stockQuantity) &&
  (1 ≤ category.length) &&
  (1 ≤ supplier.length) &&
  (1 ≤ expiryDate.length)

/-- The `ProductFormModal` submission path (`src/components/organisms/
product-form-modal.tsx`): `react-hook-form` with `zodResolver(productSchema)`
only calls `onSubmit` — which invokes the create or update mutation —
when the schema validation succeeds. -/
def modalSubmit (editing : Option Int) (f : NewProduct) : List ApiCall :=
  if productSchemaCheck f.name (some f.description) f.price f.stockQuantity
      f.category f.supplier f.expiryDate then
    match editing with
    | some id => [ApiCall.update id f]
    | none => [ApiCall.create f]
  else []

/-- One segment of a TanStack Query cache key: the source keys mix
strings, product ids and filter objects. -/
inductive QueryKeyPart where
  | s (v : String) : QueryKeyPart
  | n (v : Int) : QueryKeyPart
  | f (v : ProductFiltersOptions) : QueryKeyPart
deriving DecidableEq, Repr

/-- Whether `pre` is a leading segment of `key`: the partial key
matching of TanStack Query, under which `invalidateQueries({queryKey: k})`
invalidates every query whose key extends `k`. -/
def keyMatches : List QueryKeyPart → List QueryKeyPart → Bool
  | [], _ => true
  | _ :: _, [] => false
  | a :: as, b :: bs => if a = b then keyMatches as bs else false

/-- Key `QUERY_KEYS.products` from `src/hooks/use-inventory.ts`. -/
def QUERY_KEYS_products : List QueryKeyPart := [QueryKeyPart.s "products"]

/-- Key `QUERY_KEYS.product(id)` from `src/hooks/use-inventory.ts`. -/
def QUERY_KEYS_product (id : Int) : List QueryKeyPart :=
  [QueryKeyPart.s "products", QueryKeyPart.n id]

/-- The cache key `["products", filters]` used by `useProducts`. -/
def useProductsKey (filters : ProductFiltersOptions) : List QueryKeyPart :=
  [QueryKeyPart.s "products", QueryKeyPart.f filters]

/-- One cached query: its key and whether it has been invalidated. -/
structure CacheEntry where
  key : List QueryKeyPart
  stale : Bool
deriving DecidableEq, Repr

/-- Models `queryClient.invalidateQueries({queryKey})` (TanStack Query,
an external collaborator): every cached entry whose key extends the
given key is marked stale; the rest are untouched. -/
def invalidateQueries (queryKey : List QueryKeyPart)
    (cache : List CacheEntry) : List CacheEntry :=
  cache.map (fun e => if keyMatches queryKey e.key then ⟨e.key, true⟩ else e)

/-- The `onSuccess` handler of `useCreateProduct`:
`invalidateQueries({queryKey: QUERY_KEYS.products})`. -/
def onCreateSuccess (cache : List CacheEntry) : List CacheEntry :=
  invalidateQueries QUERY_KEYS_products cache

/-- The `onSuccess` handler of `useUpdateProduct`: invalidates the
product collection and the single-product entry of the mutated id. -/
def onUpdateSuccess (id : Int) (cache : List CacheEntry) : List CacheEntry :=
  invalidateQueries (QUERY_KEYS_product id)
    (invalidateQueries QUERY_KEYS_products cache)

/-- The `onSuccess` handler of `useDeleteProduct`:
`invalidateQueries({queryKey: QUERY_KEYS.products})`. -/
def onDeleteSuccess (cache : List CacheEntry) : List CacheEntry :=
  invalidateQueries QUERY_KEYS_products cache

lemma isLowStock_iff (q t : Int) : isLowStock q t = true ↔ 0 < q ∧ q ≤ t := by
  simp [isLowStock]

lemma isExpired_iff (d now : Int) : isExpired d now = true ↔ d < now := by
  simp [isExpired, isBefore]

lemma isExpiringSoon_iff (d now k : Int) :
    isExpiringSoon d now k = true ↔ now < d ∧ d < addDays now k := by
  simp [isExpiringSoon, isAfter, isBefore]

lemma getStatusText_eq_low_iff (q t d now : Int) :
    getStatusText q t d now = "Low Stock" ↔ 0 < q ∧ q ≤ t := by
  unfold getStatusText
  split_ifs with h0 h1 h2 h3 <;> simp_all [isLowStock_iff]

lemma getStatusText_eq_out_iff (q t d now : Int) :
    getStatusText q t d now = "Out of Stock" ↔ q = 0 := by
  unfold getStatusText
  split_ifs with h0 h1 h2 h3 <;> simp_all [isLowStock_iff]

lemma getStatusText_eq_in_iff (q t d now : Int) :
    getStatusText q t d now = "In Stock" ↔
      ¬q = 0 ∧ ¬(0 < q ∧ q ≤ t) ∧ isExpired d now = false ∧
        isExpiringSoon d now EXPIRING_SOON_DAYS = false := by
  unfold getStatusText
  split_ifs with h0 h1 h2 h3 <;> simp_all [isLowStock_iff]

/-- C1 counterexample: at stock quantity 11 with threshold 10 (so
outside both stock conditions) and an expiry date one day before `now`,
the classifier returns "Expired", not "In Stock" as the clause
"In Stock otherwise" of the claim requires. -/
theorem c1_counterexample :
    getStatusText 11 10 (-86400000) 0 ≠ "In Stock" ∧
    getStatusText 11 10 (-86400000) 0 = "Expired" ∧
    ¬(11 : Int) = 0 ∧ ¬(0 < (11 : Int) ∧ (11 : Int) ≤ 10) := by
  refine ⟨by decide, by decide, by decide, by decide⟩

/-- C1 (amended): for every stock quantity `q`, threshold `t`, expiry
date `d` and reference time `now`, the status classifier returns
"Low Stock" exactly when `0 < q ≤ t` (so `q = t` classifies as Low
Stock), "Out of Stock" exactly when `q = 0`, and "In Stock" exactly when
`q` is outside both stock conditions and the product is neither expired
nor expiring soon (so `q = t + 1` classifies as In Stock whenever no
expiry label applies; otherwise the expiry label is returned instead). -/
theorem c1_stock_status_classifier (q t d now : Int) :
    (getStatusText q t d now = "Low Stock" ↔ 0 < q ∧ q ≤ t) ∧
    (getStatusText q t d now = "Out of Stock" ↔ q = 0) ∧
    (getStatusText q t d now = "In Stock" ↔
      ¬q = 0 ∧ ¬(0 < q ∧ q ≤ t) ∧ isExpired d now = false ∧
        isExpiringSoon d now EXPIRING_SOON_DAYS = false) :=
  ⟨getStatusText_eq_low_iff q t d now, getStatusText_eq_out_iff q t d now,
   getStatusText_eq_in_iff q t d now⟩

/-- C2 counterexample: a product expiring exactly at `now` satisfies the
expiring-soon window claimed, `now ≤ d < now + 30 days`, yet the
classifier does not report it as expiring soon (the lower bound in the
code is strict). -/
theorem c2_counterexample :
    isExpiringSoon 0 0 EXPIRING_SOON_DAYS = false ∧
    (0 : Int) ≤ 0 ∧ (0 : Int) < addDays 0 EXPIRING_SOON_DAYS := by
  refine ⟨by decide, by decide, by decide⟩

/-- C2 (amended): for every expiry date `d` and reference time `now`,
the classifier reports "Expired" exactly when `d < now` and
"Expiring Soon" exactly when `now < d < now + 30 days` (both bounds
exclusive); in particular a product expiring exactly at `now` is not
expired but also lies outside the expiring-soon window. -/
theorem c2_expiry_classifier (d now : Int) :
    (isExpired d now = true ↔ d < now) ∧
    (isExpiringSoon d now EXPIRING_SOON_DAYS = true ↔
      now < d ∧ d < addDays now EXPIRING_SOON_DAYS) ∧
    isExpired now now = false ∧
    isExpiringSoon now now EXPIRING_SOON_DAYS = false := by
  refine ⟨isExpired_iff d now, isExpiringSoon_iff d now EXPIRING_SOON_DAYS, ?_, ?_⟩
  · simp [isExpired, isBefore]
  · simp [isExpiringSoon, isAfter]

/-- C3 counterexample: a product that is both low in stock and expired
gets the single label "Low Stock" from `getStatusText`; its expiry
status is suppressed by the stock status, so the two families are
mutually exclusive there, contradicting the claim. -/
theorem c3_counterexample :
    getStatusText 5 10 (-86400000) 0 = "Low Stock" ∧
    isExpired (-86400000) 0 = true := by
  refine ⟨by decide, by decide⟩

/-- C3 (amended): in the badge renderers the two status families are
independent and additive — `renderStatusBadges` emits each badge exactly
when its own predicate holds, and `ProductStatusBadge` shows the
Low Stock and Expiring Soon badges exactly when the corresponding
predicates hold, regardless of the other family — but the single-label
`getStatusText` classifier merges the families with stock taking
precedence: it returns "Low Stock" exactly when `0 < q ≤ t`, even for
expired or expiring products, whose expiry status is then suppressed. -/
theorem c3_badge_families (q t d now : Int) :
    ("Low Stock" ∈ ProductList.renderStatusBadges q d now ↔
      ProductList.isLowStock q = true) ∧
    ("Expiring Soon" ∈ ProductList.renderStatusBadges q d now ↔
      ProductList.isExpiringSoon d now = true) ∧
    ("Low Stock" ∈ ProductStatusBadge q d now ↔
      isLowStock q DEFAULT_MIN_STOCK = true) ∧
    ("Expiring Soon" ∈ ProductStatusBadge q d now ↔
      isExpiringSoon d now EXPIRING_SOON_DAYS = true) ∧
    (getStatusText q t d now = "Low Stock" ↔ 0 < q ∧ q ≤ t) := by
  refine ⟨?_, ?_, ?_, ?_, getStatusText_eq_low_iff q t d now⟩
  · rcases hl : ProductList.isLowStock q <;>
      rcases he : ProductList.isExpiringSoon d now <;>
      simp [ProductList.renderStatusBadges, hl, he]
  · rcases hl : ProductList.isLowStock q <;>
      rcases he : ProductList.isExpiringSoon d now <;>
      simp [ProductList.renderStatusBadges, hl, he]
  · rcases hl : isLowStock q DEFAULT_MIN_STOCK <;>
      rcases he : isExpiringSoon d now EXPIRING_SOON_DAYS <;>
      simp [ProductStatusBadge, hl, he]
  · rcases hl : isLowStock q DEFAULT_MIN_STOCK <;>
      rcases he : isExpiringSoon d now EXPIRING_SOON_DAYS <;>
      simp [ProductStatusBadge, hl, he]

/-- C10: `ProductStatusBadge` never renders an "Out of Stock" badge for
any product, and for a product with stock quantity 0 whose expiry date
is outside the expiring-soon window it renders exactly the "In Stock"
badge (its low-stock check requires quantity > 0). -/
theorem c10_zero_stock_badge (q d now : Int) :
    "Out of Stock" ∉ ProductStatusBadge q d now ∧
    (isExpiringSoon d now EXPIRING_SOON_DAYS = false →
      ProductStatusBadge 0 d now = ["In Stock"]) := by
  constructor
  · rcases hl : isLowStock q DEFAULT_MIN_STOCK <;>
      rcases he : isExpiringSoon d now EXPIRING_SOON_DAYS <;>
      simp [ProductStatusBadge, hl, he]
  · intro he
    simp [ProductStatusBadge, he, isLowStock]

/-- C10 witness: a zero-stock product expiring 40 days after `now`. -/
theorem c10_zero_stock_badge_witness :
    isExpiringSoon (40 * msPerDay) 0 EXPIRING_SOON_DAYS = false ∧
    ProductStatusBadge 0 (40 * msPerDay) 0 = ["In Stock"] :=
  ⟨by decide, (c10_zero_stock_badge 0 (40 * msPerDay) 0).2 (by decide)⟩

lemma filter_comm {α : Type} (p q : α → Bool) (l : List α) :
    (l.filter p).filter q = (l.filter q).filter p := by
  induction l with
  | nil => rfl
  | cons a tl ih =>
      rcases hp : p a <;> rcases hq : q a <;>
        simp [List.filter_cons, hp, hq, ih]

/-- C7: the client-side filter predicates are conjunctive: for every
product list, applying both the category and the supplier predicate
yields a sublist of applying the category predicate alone, and the two
predicates commute, so the order of application does not change the
result. -/
theorem c7_filters_conjunctive (ps : List Product) (c s : String) :
    List.Sublist
      (ProductList.applyClientFilters ⟨some c, some s, none, none⟩ ps)
      (ProductList.applyClientFilters ⟨some c, none, none, none⟩ ps) ∧
    ProductList.filterBySupplier (ProductList.filterByCategory ps c) s =
      ProductList.filterByCategory (ProductList.filterBySupplier ps s) c := by
  constructor
  · unfold ProductList.applyClientFilters
    by_cases hc : c = "" <;> by_cases hs : s = "" <;>
      simp [truthyS, hc, hs, ProductList.filterBySupplier, List.filter_sublist]
  · exact filter_comm _ _ ps

/-- C6 counterexample: with the `lowStock` shortcut set together with a
category predicate, `useProducts` returns the low-stock endpoint data
unchanged — a product whose category does not contain the requested
substring is still returned, so the remaining client-side predicates are
not applied on that path. -/
theorem c6_counterexample :
    useProductsQueryFn ⟨some "vita", none, some true, none⟩
      [⟨1, "Amoxicillin", "", mkRat 5 1, 3, "Antibiotics", "HealthCorp",
        "2026-01-01", "", ""⟩] [] [] =
      [⟨1, "Amoxicillin", "", mkRat 5 1, 3, "Antibiotics", "HealthCorp",
        "2026-01-01", "", ""⟩] ∧
    jsIncludes (jsToLower "Antibiotics") (jsToLower "vita") = false := by
  refine ⟨by decide, by decide⟩

/-- C6 (amended): when the `lowStock` (or `expiringSoon`) shortcut is
truthy, both evaluators fetch only the dedicated server endpoint; the
`ProductList` evaluator (`fetchProducts`) then still applies the
client-side category/supplier predicates to that endpoint result
before it is stored for rendering, but the `useProducts` hook returns
the endpoint result unchanged, skipping the client-side predicates. -/
theorem c6_shortcut_fetch (filters : ProductFiltersOptions)
    (lowStockResp expiringResp allResp : List Product) :
    (truthyB filters.lowStock = true →
      useProductsQueryFn filters lowStockResp expiringResp allResp = lowStockResp ∧
      ProductList.fetchProducts filters lowStockResp expiringResp allResp =
        ProductList.applyClientFilters filters lowStockResp) ∧
    (truthyB filters.lowStock = false → truthyB filters.expiringSoon = true →
      useProductsQueryFn filters lowStockResp expiringResp allResp = expiringResp ∧
      ProductList.fetchProducts filters lowStockResp expiringResp allResp =
        ProductList.applyClientFilters filters expiringResp) := by
  constructor
  · intro h
    constructor
    · simp [useProductsQueryFn, h]
    · simp [ProductList.fetchProducts, ProductList.getFilteredProducts, h]
  · intro h1 h2
    constructor
    · simp [useProductsQueryFn, h1, h2]
    · simp [ProductList.fetchProducts, ProductList.getFilteredProducts, h1, h2]

/-- C6 witness: the low-stock shortcut combined with a category filter,
on a one-product low-stock response. -/
theorem c6_shortcut_fetch_witness :
    truthyB (ProductFiltersOptions.mk (some "vita") none (some true) none).lowStock = true ∧
    (useProductsQueryFn ⟨some "vita", none, some true, none⟩
        [⟨1, "Amoxicillin", "", mkRat 5 1, 3, "Antibiotics", "HealthCorp",
          "2026-01-01", "", ""⟩] [] [] =
      [⟨1, "Amoxicillin", "", mkRat 5 1, 3, "Antibiotics", "HealthCorp",
        "2026-01-01", "", ""⟩] ∧
    ProductList.fetchProducts ⟨some "vita", none, some true, none⟩
        [⟨1, "Amoxicillin", "", mkRat 5 1, 3, "Antibiotics", "HealthCorp",
          "2026-01-01", "", ""⟩] [] [] =
      ProductList.applyClientFilters ⟨some "vita", none, some true, none⟩
        [⟨1, "Amoxicillin", "", mkRat 5 1, 3, "Antibiotics", "HealthCorp",
          "2026-01-01", "", ""⟩]) :=
  ⟨by decide,
   (c6_shortcut_fetch ⟨some "vita", none, some true, none⟩
      [⟨1, "Amoxicillin", "", mkRat 5 1, 3, "Antibiotics", "HealthCorp",
        "2026-01-01", "", ""⟩] [] []).1 (by decide)⟩

lemma productServerKeys_roundtrip :
    ∀ k ∈ productServerKeys, camelToSnakeS (snakeToCamelS k) = k := by decide

lemma roundtrip_payload :
    ∀ o : JsObj, (∀ k ∈ o.map Prod.fst, k ∈ productServerKeys) →
      transformRequestData (transformResponseData o) = o := by
  intro o
  induction o with
  | nil => intro _; rfl
  | cons p tl ih =>
      intro hk
      have h1 : camelToSnakeS (snakeToCamelS p.1) = p.1 :=
        productServerKeys_roundtrip p.1 (hk p.1 (by simp))
      have h2 := ih (fun k hk' => hk k (List.mem_cons_of_mem _ hk'))
      simp only [transformResponseData, transformRequestData, List.map_cons] at h2 ⊢
      simp [h1, h2]

lemma getF_transformApiProduct_price (o : JsObj) :
    getF (transformApiProduct o) "price" =
      (match getF o "price" with
       | JsVal.str s => JsVal.num (parseFloat s)
       | v => v) := rfl

/-- C4 counterexample: a full server product record round-tripped
through the record-level pair `transformProductToApi ∘ transformApiProduct`
loses the `created_at` and `updated_at` keys, so the round trip does not
yield the original key set. -/
theorem c4_counterexample :
    "created_at" ∈ ([("id", JsVal.num (mkRat 1 1)), ("name", JsVal.str "Aspirin"),
        ("description", JsVal.str "d"), ("price", JsVal.str "19.99"),
        ("stock_quantity", JsVal.num (mkRat 5 1)), ("category", JsVal.str "Analgesics"),
        ("supplier", JsVal.str "Acme"), ("expiry_date", JsVal.str "2026-01-01"),
        ("created_at", JsVal.str "2025-01-01"), ("updated_at", JsVal.str "2025-01-02")] : JsObj).map Prod.fst ∧
    "created_at" ∉ (transformProductToApi (transformApiProduct
      ([("id", JsVal.num (mkRat 1 1)), ("name", JsVal.str "Aspirin"),
        ("description", JsVal.str "d"), ("price", JsVal.str "19.99"),
        ("stock_quantity", JsVal.num (mkRat 5 1)), ("category", JsVal.str "Analgesics"),
        ("supplier", JsVal.str "Acme"), ("expiry_date", JsVal.str "2026-01-01"),
        ("created_at", JsVal.str "2025-01-01"), ("updated_at", JsVal.str "2025-01-02")] : JsObj))).map Prod.fst := by
  refine ⟨by decide, by decide⟩

/-- C4 (amended): for every product payload over the product field keys,
the generic key translators round-trip exactly —
`transformRequestData (transformResponseData payload)` returns the
payload itself, key set and all values preserved (these translators
declare no coercions) — while the record-level pair
`transformProductToApi ∘ transformApiProduct` produces exactly the
eight keys `id`, `name`, `description`, `price`, `stock_quantity`,
`category`, `supplier`, `expiry_date` (dropping `created_at` and
`updated_at`), with the values of all non-coerced fields preserved
(`price` is the declared string→number coercion). -/
theorem c4_translation_roundtrip (o : JsObj) :
    ((∀ k ∈ o.map Prod.fst, k ∈ productServerKeys) →
      transformRequestData (transformResponseData o) = o) ∧
    ((transformProductToApi (transformApiProduct o)).map Prod.fst =
      ["id", "name", "description", "price", "stock_quantity", "category",
       "supplier", "expiry_date"]) ∧
    (∀ k ∈ (["id", "name", "description", "stock_quantity", "category",
             "supplier", "expiry_date"] : List String),
      getF (transformProductToApi (transformApiProduct o)) k = getF o k) := by
  refine ⟨roundtrip_payload o, rfl, ?_⟩
  intro k hk
  simp only [List.mem_cons, List.not_mem_nil, or_false] at hk
  rcases hk with rfl | rfl | rfl | rfl | rfl | rfl | rfl <;> rfl

/-- C4 witness: the generic round trip evaluated on a concrete full
server-convention payload. -/
theorem c4_translation_roundtrip_witness :
    (∀ k ∈ ([("id", JsVal.num (mkRat 1 1)), ("stock_quantity", JsVal.num (mkRat 5 1)),
      ("expiry_date", JsVal.str "2026-01-01"), ("created_at", JsVal.str "2025-01-01"),
      ("updated_at", JsVal.str "2025-01-02"),
      ("minimum_stock_threshold", JsVal.num (mkRat 10 1))] : JsObj).map Prod.fst,
        k ∈ productServerKeys) ∧
    transformRequestData (transformResponseData
      ([("id", JsVal.num (mkRat 1 1)), ("stock_quantity", JsVal.num (mkRat 5 1)),
        ("expiry_date", JsVal.str "2026-01-01"), ("created_at", JsVal.str "2025-01-01"),
        ("updated_at", JsVal.str "2025-01-02"),
        ("minimum_stock_threshold", JsVal.num (mkRat 10 1))] : JsObj)) =
      ([("id", JsVal.num (mkRat 1 1)), ("stock_quantity", JsVal.num (mkRat 5 1)),
        ("expiry_date", JsVal.str "2026-01-01"), ("created_at", JsVal.str "2025-01-01"),
        ("updated_at", JsVal.str "2025-01-02"),
        ("minimum_stock_threshold", JsVal.num (mkRat 10 1))] : JsObj) :=
  ⟨by decide,
   (c4_translation_roundtrip
      ([("id", JsVal.num (mkRat 1 1)), ("stock_quantity", JsVal.num (mkRat 5 1)),
        ("expiry_date", JsVal.str "2026-01-01"), ("created_at", JsVal.str "2025-01-01"),
        ("updated_at", JsVal.str "2025-01-02"),
        ("minimum_stock_threshold", JsVal.num (mkRat 10 1))] : JsObj)).1 (by decide)⟩

/-- C5 counterexample: a read through the first `src/services/api.ts`
variant, whose `getProducts` maps `transformResponseData` over the
response, returns a record whose price — arrived as the string "19.99" —
is still that string, not a numeric value: no coercion happens on that
read path, so the returned price is not always numeric. -/
theorem c5_counterexample :
    inventoryApi_getProducts_generic [[("price", JsVal.str "19.99")]] =
      [[("price", JsVal.str "19.99")]] ∧
    getF ([("price", JsVal.str "19.99")] : JsObj) "price" = JsVal.str "19.99" ∧
    JsVal.isNum (getF ([("price", JsVal.str "19.99")] : JsObj) "price") = false := by
  refine ⟨by decide, by decide, by decide⟩

/-- C5 (amended): on the record-transformer read paths
(`transformApiProduct`, applied by the second `services/api.ts` variant
to every read) a price that arrives as a string is coerced to the parsed
number, a numeric price passes through unchanged, and the returned price
is numeric whenever a price field is present; on the key-renaming read
paths (`transformResponseData`, applied by the first variant) every
value — the price included — passes through entirely untouched, so a
price that arrives as a string is returned as a string there.  Every
record returned by either `getProducts` read path is the image of a
record of the server response under the respective transform. -/
theorem c5_price_ingress_coercion (o : JsObj) :
    (∀ s, getF o "price" = JsVal.str s →
      getF (transformApiProduct o) "price" = JsVal.num (parseFloat s)) ∧
    (∀ q, getF o "price" = JsVal.num q →
      getF (transformApiProduct o) "price" = JsVal.num q) ∧
    (getF o "price" ≠ JsVal.undef →
      ∃ q, getF (transformApiProduct o) "price" = JsVal.num q) ∧
    (∀ (respData : List JsObj) (r : JsObj), r ∈ inventoryApi_getProducts respData →
      ∃ a ∈ respData, r = transformApiProduct a) ∧
    ((transformResponseData o).map Prod.snd = o.map Prod.snd) ∧
    (∀ (respData : List JsObj) (r : JsObj),
      r ∈ inventoryApi_getProducts_generic respData →
        ∃ a ∈ respData, r = transformResponseData a) := by
  refine ⟨?_, ?_, ?_, ?_, ?_, ?_⟩
  · intro s hs
    rw [getF_transformApiProduct_price, hs]
  · intro q hq
    rw [getF_transformApiProduct_price, hq]
  · intro hu
    rw [getF_transformApiProduct_price]
    rcases hp : getF o "price" with _ | s | q
    · exact absurd hp hu
    · exact ⟨parseFloat s, rfl⟩
    · exact ⟨q, rfl⟩
  · intro respData r hr
    rcases List.mem_map.mp hr with ⟨a, ha, rfl⟩
    exact ⟨a, ha, rfl⟩
  · induction o with
    | nil => rfl
    | cons p tl ih =>
        simp only [transformResponseData, List.map_cons] at ih ⊢
        simp [ih]
  · intro respData r hr
    rcases List.mem_map.mp hr with ⟨a, ha, rfl⟩
    exact ⟨a, ha, rfl⟩

/-- C5 witness: a record whose price arrives as the string "19.99". -/
theorem c5_price_ingress_coercion_witness :
    getF ([("price", JsVal.str "19.99")] : JsObj) "price" = JsVal.str "19.99" ∧
    getF (transformApiProduct ([("price", JsVal.str "19.99")] : JsObj)) "price" =
      JsVal.num (parseFloat "19.99") :=
  ⟨rfl, (c5_price_ingress_coercion ([("price", JsVal.str "19.99")] : JsObj)).1 "19.99" rfl⟩

/-- C8: evaluating the two client-side validators at a product form
submission with price 0 (all other fields valid).  The `ProductForm`
path behaves as the claim states: `validateForm` fails with
"Price must be greater than 0" and `handleSubmit` issues no API call.
But the zod `productSchema` used by `ProductFormModal` declares
`z.number().min(0)` for the price — 0 passes, its own error message
"Price must be positive" notwithstanding — so that form proceeds to
invoke the create mutation. -/
theorem c8_price_zero_validation :
    validateForm ⟨"Aspirin", "Pain reliever", 0, 5, "Analgesics", "Acme",
      "2026-01-01"⟩ = some "Price must be greater than 0" ∧
    handleSubmit none ⟨"Aspirin", "Pain reliever", 0, 5, "Analgesics", "Acme",
      "2026-01-01"⟩ = (some "Price must be greater than 0", []) ∧
    productSchemaCheck "Aspirin" (some "Pain reliever") 0 5 "Analgesics" "Acme"
      "2026-01-01" = true ∧
    modalSubmit none ⟨"Aspirin", "Pain reliever", 0, 5, "Analgesics", "Acme",
      "2026-01-01"⟩ =
      [ApiCall.create ⟨"Aspirin", "Pain reliever", 0, 5, "Analgesics", "Acme",
        "2026-01-01"⟩] := by
  refine ⟨by decide, by decide, by decide, by decide⟩

lemma mem_invalidate_stale (k : List QueryKeyPart) (cache : List CacheEntry)
    (e : CacheEntry) (he : e ∈ invalidateQueries k cache)
    (hm : keyMatches k e.key = true) : e.stale = true := by
  rcases List.mem_map.mp he with ⟨e', _, rfl⟩
  by_cases h : keyMatches k e'.key = true
  · simp [h]
  · simp only [if_neg h] at hm ⊢
    exact absurd hm h

lemma mem_invalidate_cases (k : List QueryKeyPart) (cache : List CacheEntry)
    (e : CacheEntry) (he : e ∈ invalidateQueries k cache) :
    e.stale = true ∨ e ∈ cache := by
  rcases List.mem_map.mp he with ⟨e', he', rfl⟩
  by_cases h : keyMatches k e'.key = true
  · left; simp [h]
  · right; simpa [h] using he'

lemma keyMatches_refl (k : List QueryKeyPart) : keyMatches k k = true := by
  induction k with
  | nil => rfl
  | cons a as ih => simp [keyMatches, ih]

/-- C9: after a successful create, update, or delete mutation, every
cached entry whose key extends `["products"]` — in particular every
product collection entry `["products", filters]`, whatever filter it was
cached under — is invalidated, and a successful update additionally
invalidates the cached single-product entry `["products", id]` of the
id of the mutated product. -/
theorem c9_mutation_invalidation (cache : List CacheEntry) (id : Int)
    (filters : ProductFiltersOptions) (e : CacheEntry) :
    (e ∈ onCreateSuccess cache →
      keyMatches QUERY_KEYS_products e.key = true → e.stale = true) ∧
    (e ∈ onDeleteSuccess cache →
      keyMatches QUERY_KEYS_products e.key = true → e.stale = true) ∧
    (e ∈ onUpdateSuccess id cache →
      keyMatches QUERY_KEYS_products e.key = true → e.stale = true) ∧
    (e ∈ onUpdateSuccess id cache →
      e.key = QUERY_KEYS_product id → e.stale = true) ∧
    (e ∈ onCreateSuccess cache →
      e.key = useProductsKey filters → e.stale = true) := by
  refine ⟨?_, ?_, ?_, ?_, ?_⟩
  · intro he hm
    exact mem_invalidate_stale _ _ _ he hm
  · intro he hm
    exact mem_invalidate_stale _ _ _ he hm
  · intro he hm
    rcases mem_invalidate_cases _ _ _ he with h | h
    · exact h
    · exact mem_invalidate_stale _ _ _ h hm
  · intro he hk
    refine mem_invalidate_stale _ _ _ he ?_
    rw [hk]
    exact keyMatches_refl _
  · intro he hk
    refine mem_invalidate_stale _ _ _ he ?_
    rw [hk]
    simp [keyMatches, QUERY_KEYS_products, useProductsKey]

/-- C9 witness: a cache holding the product collection cached under the
empty filter spec; after a successful create the entry is stale. -/
theorem c9_mutation_invalidation_witness :
    (⟨useProductsKey ⟨none, none, none, none⟩, true⟩ : CacheEntry) ∈
      onCreateSuccess [⟨useProductsKey ⟨none, none, none, none⟩, false⟩] ∧
    (⟨useProductsKey ⟨none, none, none, none⟩, true⟩ : CacheEntry).stale = true :=
  ⟨by decide,
   (c9_mutation_invalidation [⟨useProductsKey ⟨none, none, none, none⟩, false⟩] 7
      ⟨none, none, none, none⟩
      ⟨useProductsKey ⟨none, none, none, none⟩, true⟩).2.2.2.2 (by decide) (by decide)⟩
